import Mathlib

/-!
Shallow embedding of the Felix agent core (`calico/felix/felix.py`) from the
bolcom/felix repository: the endpoint registry, the resynchronisation state
machine, the request queues and the message handlers, together with theorems
settling the frozen claims about them.

Modelling conventions:
* Python dicts become association lists with dict-update semantics
  (`epLookup` / `epInsert`); dict iteration order is insertion order.
* `collections.deque` with `appendleft` / `pop` becomes a list whose head is
  the left end; `pop` takes from the right, so the pair is FIFO.
* `time.time()` (float seconds since the epoch) is passed in as an integer
  parameter `now`; the code multiplies by 1000 where it does so.  No claim
  depends on sub-second fractions, so integer seconds lose nothing.
* `str(uuid.uuid4())` is modelled by a fresh-token counter `uuid_counter`
  carried in the state: each allocation returns the counter and bumps it, so
  allocated tokens never repeat.
* Python exceptions (KeyError on a missing dict key, TypeError on iterating
  `None`) are modelled by `Except PyErr`; the run loop of the source has no
  try/except around handler dispatch, so `.error` means the event loop dies.
* Effects on the outside world (messages sent per socket, SUB subscriptions,
  kernel rule chains, shim calls) are recorded in the agent state.
* Logging calls are no-ops and are omitted.
-/

abbrev EpId := String

/-- Modelled from the spec: the `suffix` of an endpoint is a short identifier
deterministically derived from its id, used to name its packet-filter rule
chains (the derivation lives in `calico/felix/endpoint.py`, which is not under
`src/`). -/
def suffixOf (i : EpId) : String := "felix-" ++ i

/-- Modelled from the spec: the endpoint record of `calico/felix/endpoint.py`
(not under `src/`), section 3 of the spec: id, mac, set of addresses, the
`pending_resync` and `need_acls` flags, and the last ACL payload installed via
`update_acls`.  A freshly constructed endpoint has not yet any resync
outstanding against it, so `pending_resync` starts false; `_create_endpoint`
immediately issues an ACL fetch, so `need_acls` starts true.  Addresses are
kept as opaque strings.  The rule-chain suffix is computed by `suffixOf`. -/
structure Endpoint where
  id : EpId
  mac : String
  addresses : List String := []
  pending_resync : Bool := false
  need_acls : Bool := true
  acls : Option Nat := none
deriving DecidableEq

def Endpoint.suffix (ep : Endpoint) : String := suffixOf ep.id

inductive MsgType
  | HEARTBEAT | EP_CR | EP_UP | EP_RM | RESYNC | GET_ACL | ACL_UPD
deriving DecidableEq

/-- The string-keyed field bag of a `Message`.  An outer `none` means the key
is absent from the dict (access raises KeyError); for `resync_id` the value
itself is nullable, hence the nested option. -/
structure Fields where
  endpoint_id : Option EpId := none
  resync_id : Option (Option Nat) := none
  issued : Option ℤ := none
  mac : Option String := none
  state : Option String := none
  addrs : Option (List String) := none
  rc : Option String := none
  message : Option String := none
  endpoint_count : Option Nat := none
  hostname : Option String := none
  acls : Option Nat := none
deriving DecidableEq

/-- A message on the bus.  `endpoint_id_attr` is the `message.endpoint_id`
attribute carried by ACLUPDATE publications (the SUB topic). -/
structure Message where
  type : MsgType
  endpoint_id_attr : Option EpId := none
  fields : Fields := {}
deriving DecidableEq

inductive PyErr
  | keyError | typeError
deriving DecidableEq

/-- Which REQ socket a request goes to (`Socket.TYPE_EP_REQ` or
`Socket.TYPE_ACL_REQ`). -/
inductive ReqSock
  | ep | acl
deriving DecidableEq

/-- The whole observable state of a `FelixAgent` together with its effects on
the world: the endpoint registry, the resync context, the two request queues,
the REQ sockets' outstanding flags, the SUB subscription set, the kernel rule
chains currently installed (the state read by `futils.list_eps_with_rules`),
the messages sent per socket, and traces of the `ep.remove()` and
`futils.del_rules` shim calls. -/
structure AgentState where
  endpoints : List (EpId × Endpoint) := []
  resync_id : Option Nat := none
  resync_recd : Option Nat := none
  resync_expected : Option Nat := none
  resync_time : Option ℤ := none
  uuid_counter : Nat := 0
  endpoint_queue : List Message := []
  acl_queue : List Message := []
  ep_req_outstanding : Bool := false
  acl_req_outstanding : Bool := false
  subscriptions : List EpId := []
  installed : List String := []
  sent_ep_req : List Message := []
  sent_ep_rep : List Message := []
  sent_acl_req : List Message := []
  removeCalls : List EpId := []
  delRulesCalls : List String := []
  hostname : String := "host"
deriving DecidableEq

/-- Boolean list membership (Python `in` on a set or list). -/
def memb (x : String) (l : List String) : Bool := l.any (fun y => y == x)

/-- Python dict lookup `d.get(k)` on the registry. -/
def epLookup (es : List (EpId × Endpoint)) (i : EpId) : Option Endpoint :=
  match es with
  | [] => none
  | (j, ep) :: rest => if j == i then some ep else epLookup rest i

/-- Python dict assignment `d[k] = v` on the registry: replace in place, or
append when the key is new (dicts preserve insertion order). -/
def epInsert (es : List (EpId × Endpoint)) (i : EpId) (ep : Endpoint) :
    List (EpId × Endpoint) :=
  match es with
  | [] => [(i, ep)]
  | (j, e) :: rest =>
      if j == i then (i, ep) :: rest else (j, e) :: epInsert rest i ep

/-- The set `{ ep.suffix for ep in self.endpoints.values() }` computed by
`complete_endpoint_resync` (membership is all that is used of it). -/
def knownSuffixes (s : AgentState) : List String :=
  s.endpoints.map (fun p => p.2.suffix)

/-- Modelled from the spec: `ep.program_endpoint()` of
`calico/felix/endpoint.py` (not under `src/`) installs the per-endpoint
packet-filter rule chain, i.e. makes `ep.suffix` present among the installed
rule chains. -/
def program_endpoint (s : AgentState) (ep : Endpoint) : AgentState :=
  { s with installed :=
      if memb ep.suffix s.installed then s.installed
      else s.installed ++ [ep.suffix] }

/-- Modelled from the spec: `ep.remove()` of `calico/felix/endpoint.py` (not
under `src/`) removes the packet-filter rules for `ep`; the call is traced in
`removeCalls`.  It does not touch the registry (endpoints hold no back
reference to the agent). -/
def ep_remove (s : AgentState) (ep : Endpoint) : AgentState :=
  { s with installed := s.installed.filter (fun x => !(x == ep.suffix)),
           removeCalls := s.removeCalls ++ [ep.id] }

/-- Modelled from the spec: `futils.del_rules(suffix)` (module not under
`src/`) deletes the rule chain named by `suffix`; the call is traced. -/
def delRules (s : AgentState) (r : String) : AgentState :=
  { s with installed := s.installed.filter (fun x => !(x == r)),
           delRulesCalls := s.delRulesCalls ++ [r] }

/-- `FelixAgent.send_request`: a REQ socket may have only one request in
flight, so if the target socket has a request outstanding the message is
queued with `appendleft`, else it is sent (which marks the socket
outstanding, per the `fsocket.Socket` behaviour of section 4.A). -/
def send_request (s : AgentState) (m : Message) (k : ReqSock) : AgentState :=
  match k with
  | .ep =>
      if s.ep_req_outstanding then
        { s with endpoint_queue := m :: s.endpoint_queue }
      else
        { s with sent_ep_req := s.sent_ep_req ++ [m], ep_req_outstanding := true }
  | .acl =>
      if s.acl_req_outstanding then
        { s with acl_queue := m :: s.acl_queue }
      else
        { s with sent_acl_req := s.sent_acl_req ++ [m], acl_req_outstanding := true }

/-- The RESYNCSTATE request built by `resync_endpoints`. -/
def resyncMsg (rid : Nat) (now : ℤ) (host : String) : Message :=
  { type := .RESYNC,
    fields := { resync_id := some (some rid), issued := some (now * 1000),
                hostname := some host } }

/-- The GETACLSTATE request built by `_create_endpoint` and `resync_acls`. -/
def getAclMsg (eid : EpId) (now : ℤ) : Message :=
  { type := .GET_ACL,
    fields := { endpoint_id := some eid, issued := some (now * 1000) } }

/-- The `{rc: SUCCESS, message: ""}` reply sent on EP_REP (the source tags it
`TYPE_EP_CR` both for creates and for updates). -/
def epSuccessReply : Message :=
  { type := .EP_CR, fields := { rc := some "SUCCESS", message := some "" } }

def heartbeatReply : Message := { type := .HEARTBEAT }

/-- `FelixAgent.resync_endpoints`: allocate a fresh resync id, zero the
counters, mark every known endpoint `pending_resync`, clear both request
queues, then send a RESYNCSTATE request on EP_REQ. -/
def resync_endpoints (s : AgentState) (now : ℤ) : AgentState :=
  let rid := s.uuid_counter
  let s1 := { s with
    resync_id := some rid,
    resync_recd := some 0,
    resync_expected := some 0,
    uuid_counter := s.uuid_counter + 1,
    endpoints := s.endpoints.map (fun p => (p.1, { p.2 with pending_resync := true })),
    endpoint_queue := [],
    acl_queue := [] }
  send_request s1 (resyncMsg rid now s.hostname) .ep

/-- `FelixAgent.resync_acls`: clear the ACL queue, then for every endpoint set
`need_acls` and issue a GETACLSTATE request on ACL_REQ. -/
def resync_acls (s : AgentState) (now : ℤ) : AgentState :=
  let s1 := { s with acl_queue := [] }
  s1.endpoints.foldl
    (fun t p =>
      let t2 := { t with endpoints := epInsert t.endpoints p.1 { p.2 with need_acls := true } }
      send_request t2 (getAclMsg p.1 now) .acl)
    s1

/-- The pruning loop of `complete_endpoint_resync`: for every endpoint value
still marked `pending_resync`, call `ep.remove()`.  Note the source does only
that: it neither deletes the endpoint from `self.endpoints` nor unsubscribes
its id on the ACL SUB socket. -/
def pruneRules (t : AgentState) (eps : List Endpoint) : AgentState :=
  eps.foldl (fun t ep => if ep.pending_resync then ep_remove t ep else t) t

/-- The reconciliation loop of `complete_endpoint_resync`: for every rule-chain
suffix the kernel holds (`rule_ids`, captured once), delete it unless it is a
suffix of some registry endpoint (`known`, captured once). -/
def reconcile (t : AgentState) (known : List String) (rids : List String) :
    AgentState :=
  rids.foldl (fun t r => if memb r known then t else delRules t r) t

/-- `FelixAgent.complete_endpoint_resync(successful)`: clear the resync
context, stamp `resync_time` with `time.time() * 1000` (milliseconds), if
successful call `ep.remove()` on every still-pending endpoint, then delete
every installed rule chain whose suffix belongs to no registry endpoint. -/
def complete_endpoint_resync (s : AgentState) (successful : Bool) (now : ℤ) :
    AgentState :=
  let s1 := { s with resync_id := none, resync_recd := none,
                     resync_expected := none, resync_time := some (now * 1000) }
  let s2 := if successful then pruneRules s1 (s1.endpoints.map Prod.snd) else s1
  reconcile s2 (knownSuffixes s2) s2.installed

/-- `resync_in_progress = (resync_id and resync_id == self.resync_id)`:
the message token is truthy and equals the active one.  Comparing a string to
`None` in Python yields `False`, hence the mixed cases are false. -/
def tokenMatch : Option Nat → Option Nat → Bool
  | some a, some b => a == b
  | _, _ => false

/-- `last_resync = (self.resync_expected and self.resync_recd ==
self.resync_expected)`: `resync_expected` is truthy (neither `None` nor zero) and the received count
equals it. -/
def expectedReached : Option Nat → Option Nat → Bool
  | some e, some r => (e != 0) && (r == e)
  | _, _ => false

/-- `endpoint_count == self.resync_recd` as Python evaluates it: comparing an
int with `None` yields `False`. -/
def pyEqNat : Option Nat → Nat → Bool
  | some r, c => r == c
  | none, _ => false

/-- `FelixAgent._create_endpoint`: construct the endpoint, put it in the
registry, subscribe the ACL SUB socket to its id, then request its ACL state
on ACL_REQ.  Returns the updated agent and the new endpoint. -/
def create_endpoint (s : AgentState) (eid : EpId) (mc : String) (now : ℤ) :
    AgentState × Endpoint :=
  let ep : Endpoint := { id := eid, mac := mc }
  let s1 := { s with
    endpoints := epInsert s.endpoints eid ep,
    subscriptions :=
      if memb eid s.subscriptions then s.subscriptions
      else s.subscriptions ++ [eid] }
  (send_request s1 (getAclMsg eid now) .acl, ep)

/-- `FelixAgent._update_endpoint`: reads `fields['mac']` and `fields['state']`
(KeyError when absent), then iterates `fields.get('addrs', None)` (TypeError
when the key is absent, since iterating `None` fails), replaces the address
set, stores the mac, and programs the endpoint.  Returns the updated agent and
the updated endpoint record (the source mutates the aliased object). -/
def update_endpoint (s : AgentState) (ep : Endpoint) (f : Fields) :
    Except PyErr (AgentState × Endpoint) :=
  match f.mac, f.state with
  | some mc, some _st =>
      match f.addrs with
      | none => .error .typeError
      | some ads =>
          let ep2 := { ep with addresses := ads, mac := mc }
          .ok (program_endpoint s ep2, ep2)
  | _, _ => .error .keyError

/-- The tail of `handle_endpointcreated` after the reply is sent: if the
message token matches the active resync, increment `resync_recd`
(incrementing a `None` counter would be a TypeError; unreachable in real runs
since `resync_recd` is set whenever `resync_id` is), and if the expected count
is known and now reached, complete the resync successfully. -/
def resync_tail (s : AgentState) (rid : Option Nat) (now : ℤ) :
    Except PyErr AgentState :=
  if tokenMatch rid s.resync_id then
    match s.resync_recd with
    | none => .error .typeError
    | some r =>
        let s2 := { s with resync_recd := some (r + 1) }
        if expectedReached s2.resync_expected s2.resync_recd then
          .ok (complete_endpoint_resync s2 true now)
        else .ok s2
  else .ok s

/-- `FelixAgent.handle_endpointcreated`: read `endpoint_id`, `resync_id`,
`issued`, `mac` (KeyError when any is absent), fetch or create the endpoint,
apply `_update_endpoint` (writing the mutated object back at the looked-up
key), reply `{rc: SUCCESS}` on EP_REP, then run the resync accounting. -/
def handle_endpointcreated (s : AgentState) (m : Message) (now : ℤ) :
    Except PyErr AgentState :=
  match m.fields.endpoint_id, m.fields.resync_id, m.fields.issued, m.fields.mac with
  | some eid, some rid, some _iss, some mc =>
      let se : AgentState × Endpoint :=
        match epLookup s.endpoints eid with
        | some ep => (s, ep)
        | none => create_endpoint s eid mc now
      match update_endpoint se.1 se.2 m.fields with
      | .error e => .error e
      | .ok se2 =>
          let s3 : AgentState :=
            { se2.1 with endpoints := epInsert se2.1.endpoints eid se2.2,
                         sent_ep_rep := se2.1.sent_ep_rep ++ [epSuccessReply] }
          resync_tail s3 rid now
  | _, _, _, _ => .error .keyError

/-- `FelixAgent.handle_endpointupdated`: read `endpoint_id` and `issued`
(KeyError when absent), then `self.endpoints[endpoint_id]` — a KeyError when
the endpoint is unknown — then update and reply. -/
def handle_endpointupdated (s : AgentState) (m : Message) :
    Except PyErr AgentState :=
  match m.fields.endpoint_id, m.fields.issued with
  | some eid, some _iss =>
      match epLookup s.endpoints eid with
      | none => .error .keyError
      | some ep =>
          match update_endpoint s ep m.fields with
          | .error e => .error e
          | .ok se2 =>
              .ok { se2.1 with
                      endpoints := epInsert se2.1.endpoints eid se2.2,
                      sent_ep_rep := se2.1.sent_ep_rep ++ [epSuccessReply] }
  | _, _ => .error .keyError

/-- `FelixAgent.handle_endpointdestroyed`: pop the endpoint (log and return
when absent), unsubscribe its id on ACL SUB, call `ep.remove()`. -/
def handle_endpointdestroyed (s : AgentState) (m : Message) :
    Except PyErr AgentState :=
  match m.fields.endpoint_id, m.fields.issued with
  | some eid, some _iss =>
      match epLookup s.endpoints eid with
      | none => .ok s
      | some ep =>
          let s1 := { s with
            endpoints := s.endpoints.filter (fun p => !(p.1 == eid)),
            subscriptions := s.subscriptions.filter (fun x => !(x == eid)) }
          .ok (ep_remove s1 ep)
  | _, _ => .error .keyError

/-- `FelixAgent.handle_heartbeat`: reply immediately with an empty HEARTBEAT
on EP_REP. -/
def handle_heartbeat (s : AgentState) (_m : Message) : Except PyErr AgentState :=
  .ok { s with sent_ep_rep := s.sent_ep_rep ++ [heartbeatReply] }

/-- `FelixAgent.handle_resyncstate`: read `endpoint_count`, `rc`, `message`
(KeyError when absent).  Non-SUCCESS: complete unsuccessfully.  A zero count,
or a count already equal to `resync_recd`: complete successfully.  Otherwise
record the expected count. -/
def handle_resyncstate (s : AgentState) (m : Message) (now : ℤ) :
    Except PyErr AgentState :=
  match m.fields.endpoint_count, m.fields.rc, m.fields.message with
  | some cnt, some rc, some _str =>
      if rc != "SUCCESS" then
        .ok (complete_endpoint_resync s false now)
      else if (cnt == 0) || pyEqNat s.resync_recd cnt then
        .ok (complete_endpoint_resync s true now)
      else
        .ok { s with resync_expected := some cnt }
  | _, _, _ => .error .keyError

/-- `FelixAgent.handle_getaclstate`: read `rc` and `message` (KeyError when
absent), log on non-SUCCESS, change nothing. -/
def handle_getaclstate (s : AgentState) (m : Message) : Except PyErr AgentState :=
  match m.fields.rc, m.fields.message with
  | some _rc, some _str => .ok s
  | _, _ => .error .keyError

/-- `FelixAgent.handle_aclupdate`: `self.endpoints[message.endpoint_id]` — a
KeyError when the endpoint is unknown — then `endpoint.update_acls(acls)`
(modelled from the spec: store the ACL payload on the endpoint; the method
lives in `calico/felix/endpoint.py`, not under `src/`). -/
def handle_aclupdate (s : AgentState) (m : Message) : Except PyErr AgentState :=
  match m.endpoint_id_attr with
  | none => .error .keyError
  | some eid =>
      match epLookup s.endpoints eid with
      | none => .error .keyError
      | some ep =>
          match m.fields.acls with
          | none => .error .keyError
          | some a =>
              .ok { s with endpoints := epInsert s.endpoints eid { ep with acls := some a } }

/-- The dispatch of `FelixAgent.run`: `self.handlers[message.type](message)`,
with no exception handler around it — an `.error` escapes the event loop. -/
def dispatchMessage (s : AgentState) (m : Message) (now : ℤ) :
    Except PyErr AgentState :=
  match m.type with
  | .HEARTBEAT => handle_heartbeat s m
  | .EP_CR => handle_endpointcreated s m now
  | .EP_UP => handle_endpointupdated s m
  | .EP_RM => handle_endpointdestroyed s m
  | .RESYNC => handle_resyncstate s m now
  | .GET_ACL => handle_getaclstate s m
  | .ACL_UPD => handle_aclupdate s m

/-- The periodic-resync tail of one `FelixAgent.run` iteration (the code after
queue draining): `if self.resync_id == None and (time.time() -
self.resync_time > Config.RESYNC_INT_SEC)` mark an endpoint resync needed,
then run `resync_endpoints` or else `resync_acls` as flagged.  Note the source
units: `resync_time` was stored as `time.time() * 1000` (milliseconds) while
`time.time()` here is seconds.  `resyncIntSec` stands for
`Config.RESYNC_INT_SEC` (modelled from the spec: the config module is not
under `src/`; it is the period in seconds).  A `None` `resync_time` is never
consulted, because `resync_id` stays non-null until the first completion sets
`resync_time`; that arm returns false. -/
def loop_resync_phase (s : AgentState) (now resyncIntSec : ℤ)
    (epNeeded aclNeeded : Bool) : AgentState :=
  let needed := epNeeded ||
    (s.resync_id == none &&
      (match s.resync_time with
       | some t => decide (now - t > resyncIntSec)
       | none => false))
  if needed then resync_endpoints s now
  else if aclNeeded then resync_acls s now
  else s

/-- An agent with nothing yet: empty registry, no resync in flight. -/
def emptyAgent : AgentState := {}

/-- A registered endpoint that is still awaiting its resync confirmation. -/
def pendingEp1 : Endpoint := { id := "e1", mac := "m0", pending_resync := true }

/-- Mid-resync agent holding `e1` (still pending), subscribed to it, with its
rule chain installed; the RESYNC reply promised one endpoint and one
ENDPOINTCREATED was counted. -/
def resyncDoneState : AgentState :=
  { endpoints := [("e1", pendingEp1)], resync_id := some 5,
    resync_recd := some 1, resync_expected := some 1,
    subscriptions := ["e1"], installed := [suffixOf "e1"] }

/-- A registered endpoint `e2` still pending at resync end. -/
def pendingEp2 : Endpoint := { id := "e2", mac := "m0", pending_resync := true }

/-- Mid-resync agent holding `e2` (still pending) with its rule chain
installed. -/
def resyncDoneState2 : AgentState :=
  { endpoints := [("e2", pendingEp2)], resync_id := some 4,
    resync_recd := some 0, resync_expected := some 0,
    subscriptions := ["e2"], installed := [suffixOf "e2"] }

/-- Agent that started a resync (token 7) while already managing `e1`. -/
def midResyncState : AgentState :=
  { endpoints := [("e1", pendingEp1)], resync_id := some 7,
    resync_recd := some 0, resync_expected := some 0,
    subscriptions := ["e1"], installed := [suffixOf "e1"] }

/-- ENDPOINTCREATED for `e1` carrying the active resync token 7. -/
def createE1Resync7 : Message :=
  { type := .EP_CR,
    fields := { endpoint_id := some "e1", resync_id := some (some 7),
                issued := some 0, mac := some "m1", state := some "enabled",
                addrs := some ["10.0.0.1"] } }

/-- Idle agent whose last resync completed at wall-clock 1000 s: the source
stored `time.time() * 1000`, i.e. 1000000. -/
def idleAfterCompletion : AgentState := { resync_time := some 1000000 }

/-- ACLUPDATE publication for an id absent from the registry. -/
def aclUpdateUnknown : Message :=
  { type := .ACL_UPD, endpoint_id_attr := some "e1",
    fields := { acls := some 42 } }

/-- ENDPOINTUPDATED for an id absent from the registry, all fields present. -/
def updateUnknown : Message :=
  { type := .EP_UP,
    fields := { endpoint_id := some "e1", issued := some 0, mac := some "m",
                state := some "enabled", addrs := some [] } }

/-- ENDPOINTUPDATED missing its required `endpoint_id` field. -/
def updateMissingField : Message :=
  { type := .EP_UP, fields := { issued := some 0 } }

/-- A RESYNCSTATE reply refusing the resync. -/
def resyncRefused : Message :=
  { type := .RESYNC,
    fields := { rc := some "FAIL", message := some "denied",
                endpoint_count := some 3 } }

/-- Agent awaiting a RESYNC reply for token 9, knowing no endpoint. -/
def awaitingReplyState : AgentState :=
  { resync_id := some 9, resync_recd := some 0, resync_expected := some 0 }

/-- ENDPOINTCREATED for a fresh `e1` carrying a stale resync token 3. -/
def createE1Stale : Message :=
  { type := .EP_CR,
    fields := { endpoint_id := some "e1", resync_id := some (some 3),
                issued := some 0, mac := some "m", state := some "enabled",
                addrs := some ["10.0.0.1"] } }

/-- Agent that has already burned three resync tokens. -/
def threeTokensUsed : AgentState := { uuid_counter := 3 }

/-- Claim C1 (counter-evidence): on a successful completion with `e1` still
pending, the source calls `ep.remove()` but does NOT delete `e1` from the
registry, does NOT unsubscribe it, and `e1` keeps `pending_resync = true`. -/
theorem complete_resync_leaves_pruned_endpoint_in_registry :
    (complete_endpoint_resync resyncDoneState true 7).removeCalls = ["e1"] ∧
    (epLookup (complete_endpoint_resync resyncDoneState true 7).endpoints "e1").map
        (fun e => e.pending_resync) = some true ∧
    "e1" ∈ (complete_endpoint_resync resyncDoneState true 7).subscriptions := by
  decide

/-- Claim C2 (counter-evidence): immediately after a successful completion
with `e2` still pending, the suffix of the registry endpoint `e2` is not among
the installed rule chains, so invariant I3 fails. -/
theorem complete_resync_breaks_rule_chain_invariant :
    suffixOf "e2" ∈ knownSuffixes (complete_endpoint_resync resyncDoneState2 true 0) ∧
    suffixOf "e2" ∉ (complete_endpoint_resync resyncDoneState2 true 0).installed := by
  decide

/-- Claim C3 (counter-evidence): handling an ENDPOINTCREATED that carries the
active resync token increments `resync_recd` from 0 to 1, yet leaves the
endpoint's `pending_resync` flag true — no code in the handler clears it. -/
theorem endpointcreated_does_not_clear_pending_resync :
    (handle_endpointcreated midResyncState createE1Resync7 0).toOption.map
        (fun u => (u.resync_recd,
                   (epLookup u.endpoints "e1").map (fun e => e.pending_resync)))
      = some (some 1, some true) := by
  decide

/-- Claim C7 (counter-evidence): with no resync in flight, the last completion
at wall-clock 1000 s and the current time 1011 s, more than
`RESYNC_INT_SEC = 10` seconds have elapsed, yet the loop leaves the agent
untouched: `resync_time` was stored in milliseconds while the check subtracts
it from seconds. -/
theorem periodic_resync_check_never_fires :
    ((1011 : ℤ) - 1000 > 10) ∧
    loop_resync_phase idleAfterCompletion 1011 10 false false = idleAfterCompletion := by
  decide

/-- Claim C8 (counter-evidence): an ACLUPDATE for an endpoint absent from the
registry raises a KeyError (`self.endpoints[endpoint_id]`) instead of being
dropped silently; the run loop has no handler for it. -/
theorem aclupdate_unknown_endpoint_raises_keyerror :
    handle_aclupdate emptyAgent aclUpdateUnknown = .error .keyError := by
  rfl

/-- Claim C9 (counter-evidence): dispatching an ENDPOINTUPDATED for an unknown
endpoint id, or one missing its required `endpoint_id` field, yields an
uncaught KeyError — `FelixAgent.run` wraps the handler call in no
try/except, so the event loop terminates. -/
theorem dispatch_unknown_or_missing_field_raises :
    dispatchMessage emptyAgent updateUnknown 0 = .error .keyError ∧
    dispatchMessage emptyAgent updateMissingField 0 = .error .keyError :=
  ⟨rfl, rfl⟩

theorem memb_nil (x : String) : memb x [] = false := rfl

theorem memb_cons (x a : String) (l : List String) :
    memb x (a :: l) = ((a == x) || memb x l) := rfl

theorem memb_of_mem {x : String} {l : List String} (h : x ∈ l) :
    memb x l = true := by
  simp only [memb, List.any_eq_true, beq_iff_eq]
  exact ⟨x, h, rfl⟩

theorem filter_true_on (l : List String) : l.filter (fun _ => true) = l := by
  induction l with
  | nil => rfl
  | cons a l ih => rw [List.filter_cons]; simp [ih]

theorem filter_congr_on (p q : String → Bool) :
    ∀ l : List String, (∀ x ∈ l, p x = q x) → l.filter p = l.filter q := by
  intro l
  induction l with
  | nil => intro _; rfl
  | cons a l ih =>
    intro h
    have ha := h a (by simp)
    rw [List.filter_cons, List.filter_cons, ha,
        ih (fun x hx => h x (by simp [hx]))]

theorem filter_and (p q : String → Bool) (l : List String) :
    (l.filter p).filter q = l.filter (fun x => p x && q x) := by
  induction l with
  | nil => rfl
  | cons a l ih =>
    cases hp : p a <;> cases hq : q a <;>
      simp [List.filter_cons, hp, hq, ih]

theorem epLookup_epInsert_self (es : List (EpId × Endpoint)) (i : EpId)
    (ep : Endpoint) : epLookup (epInsert es i ep) i = some ep := by
  induction es with
  | nil => simp [epInsert, epLookup]
  | cons p rest ih =>
    obtain ⟨j, e⟩ := p
    by_cases h : (j == i) = true
    · simp [epInsert, h, epLookup]
    · simp only [epInsert, h, if_false, Bool.false_eq_true, ite_false]
      simpa [epLookup, h] using ih

theorem send_request_proj (s : AgentState) (m : Message) (k : ReqSock) :
    (send_request s m k).resync_id = s.resync_id ∧
    (send_request s m k).resync_recd = s.resync_recd ∧
    (send_request s m k).resync_expected = s.resync_expected ∧
    (send_request s m k).resync_time = s.resync_time ∧
    (send_request s m k).sent_ep_rep = s.sent_ep_rep ∧
    (send_request s m k).endpoints = s.endpoints := by
  cases k <;> by_cases h : s.ep_req_outstanding <;>
    by_cases h2 : s.acl_req_outstanding <;>
    simp [send_request, h, h2]

theorem create_endpoint_proj (s : AgentState) (eid : EpId) (mc : String)
    (now : ℤ) :
    (create_endpoint s eid mc now).1.resync_id = s.resync_id ∧
    (create_endpoint s eid mc now).1.resync_recd = s.resync_recd ∧
    (create_endpoint s eid mc now).1.resync_expected = s.resync_expected ∧
    (create_endpoint s eid mc now).1.resync_time = s.resync_time ∧
    (create_endpoint s eid mc now).1.sent_ep_rep = s.sent_ep_rep := by
  obtain ⟨h1, h2, h3, h4, h5, _⟩ := send_request_proj
    { s with endpoints := epInsert s.endpoints eid { id := eid, mac := mc },
             subscriptions :=
               if memb eid s.subscriptions then s.subscriptions
               else s.subscriptions ++ [eid] }
    (getAclMsg eid now) .acl
  exact ⟨h1, h2, h3, h4, h5⟩

theorem update_endpoint_eq (s : AgentState) (ep : Endpoint) (f : Fields)
    (mc st : String) (ads : List String)
    (hm : f.mac = some mc) (hs : f.state = some st) (ha : f.addrs = some ads) :
    update_endpoint s ep f =
      .ok (program_endpoint s { ep with addresses := ads, mac := mc },
           { ep with addresses := ads, mac := mc }) := by
  unfold update_endpoint
  rw [hm, hs, ha]

theorem resync_tail_stale (s : AgentState) (rid : Option Nat) (now : ℤ)
    (h : tokenMatch rid s.resync_id = false) :
    resync_tail s rid now = .ok s := by
  simp [resync_tail, h]

theorem reconcile_proj (known : List String) :
    ∀ (rids : List String) (t : AgentState),
      (reconcile t known rids).endpoints = t.endpoints ∧
      (reconcile t known rids).removeCalls = t.removeCalls ∧
      (reconcile t known rids).resync_id = t.resync_id ∧
      (reconcile t known rids).resync_recd = t.resync_recd ∧
      (reconcile t known rids).resync_expected = t.resync_expected ∧
      (reconcile t known rids).resync_time = t.resync_time ∧
      (reconcile t known rids).subscriptions = t.subscriptions := by
  intro rids
  induction rids with
  | nil => intro t; exact ⟨rfl, rfl, rfl, rfl, rfl, rfl, rfl⟩
  | cons r rs ih =>
    intro t
    have hstep : reconcile t known (r :: rs)
        = reconcile (if memb r known then t else delRules t r) known rs := rfl
    rw [hstep]
    have h := ih (if memb r known then t else delRules t r)
    by_cases hm : memb r known
    · simpa [hm] using h
    · simpa [hm, delRules] using h

theorem reconcile_installed (known : List String) :
    ∀ (rids : List String) (t : AgentState),
      (reconcile t known rids).installed
        = t.installed.filter (fun x => memb x known || !(memb x rids)) := by
  intro rids
  induction rids with
  | nil =>
    intro t
    calc (reconcile t known []).installed
        = t.installed.filter (fun _ => true) := (filter_true_on _).symm
      _ = t.installed.filter (fun x => memb x known || !(memb x [])) := by
          apply filter_congr_on
          intro x _
          simp [memb_nil]
  | cons r rs ih =>
    intro t
    have hstep : reconcile t known (r :: rs)
        = reconcile (if memb r known then t else delRules t r) known rs := rfl
    rw [hstep]
    by_cases hm : memb r known
    · rw [if_pos hm, ih t]
      apply filter_congr_on
      intro x _
      by_cases hxk : memb x known
      · simp [hxk]
      · have hxr : (r == x) = false := by
          cases hrx : r == x
          · rfl
          · exfalso
            have hre : r = x := by simpa using hrx
            rw [hre] at hm
            exact hxk hm
        simp [hxk, memb_cons, hxr]
    · rw [if_neg hm, ih (delRules t r)]
      have hinst : (delRules t r).installed
          = t.installed.filter (fun x => !(x == r)) := rfl
      rw [hinst, filter_and]
      apply filter_congr_on
      intro x _
      by_cases hxr : (x == r) = true
      · have hx_eq : x = r := by simpa using hxr
        subst hx_eq
        have hmx : memb x known = false := by simpa using hm
        simp [hxr, memb_cons, hmx]
      · have hxr2 : (x == r) = false := by simpa using hxr
        have hrx : (r == x) = false := by
          cases hrx2 : r == x
          · rfl
          · exfalso
            have hre : r = x := by simpa using hrx2
            rw [hre] at hxr2
            simp at hxr2
        simp [hxr2, memb_cons, hrx]

theorem reconcile_calls (known : List String) :
    ∀ (rids : List String) (t : AgentState),
      (reconcile t known rids).delRulesCalls
        = t.delRulesCalls ++ rids.filter (fun r => !(memb r known)) := by
  intro rids
  induction rids with
  | nil => intro t; simp [reconcile]
  | cons r rs ih =>
    intro t
    have hstep : reconcile t known (r :: rs)
        = reconcile (if memb r known then t else delRules t r) known rs := rfl
    rw [hstep]
    by_cases hm : memb r known
    · rw [if_pos hm, ih t, List.filter_cons]
      simp [hm]
    · rw [if_neg hm, ih (delRules t r), List.filter_cons]
      have hd : (delRules t r).delRulesCalls = t.delRulesCalls ++ [r] := rfl
      rw [hd]
      simp [hm]

theorem pruneRules_proj :
    ∀ (eps : List Endpoint) (t : AgentState),
      (pruneRules t eps).resync_id = t.resync_id ∧
      (pruneRules t eps).resync_recd = t.resync_recd ∧
      (pruneRules t eps).resync_expected = t.resync_expected ∧
      (pruneRules t eps).resync_time = t.resync_time ∧
      (pruneRules t eps).endpoints = t.endpoints ∧
      (pruneRules t eps).delRulesCalls = t.delRulesCalls := by
  intro eps
  induction eps with
  | nil => intro t; exact ⟨rfl, rfl, rfl, rfl, rfl, rfl⟩
  | cons e es ih =>
    intro t
    have hstep : pruneRules t (e :: es)
        = pruneRules (if e.pending_resync then ep_remove t e else t) es := rfl
    rw [hstep]
    have h := ih (if e.pending_resync then ep_remove t e else t)
    by_cases hp : e.pending_resync
    · simpa [hp, ep_remove] using h
    · simpa [hp] using h

/-- Claim C6: `resync_endpoints` allocates a fresh non-null resync id (the
next counter token, hence different from every previously allocated one),
sets `resync_recd` to zero, marks every registry endpoint `pending_resync`,
empties both request queues, and issues exactly one RESYNC request on EP_REQ:
sent immediately when the socket is idle, else left as the sole queued
message. -/
theorem resync_endpoints_spec (s : AgentState) (now : ℤ) :
    (resync_endpoints s now).resync_id = some s.uuid_counter ∧
    (∀ t, t < s.uuid_counter → (resync_endpoints s now).resync_id ≠ some t) ∧
    (resync_endpoints s now).resync_recd = some 0 ∧
    (∀ p ∈ (resync_endpoints s now).endpoints, p.2.pending_resync = true) ∧
    (resync_endpoints s now).acl_queue = [] ∧
    (if s.ep_req_outstanding then
        (resync_endpoints s now).endpoint_queue
            = [resyncMsg s.uuid_counter now s.hostname] ∧
        (resync_endpoints s now).sent_ep_req = s.sent_ep_req
      else
        (resync_endpoints s now).endpoint_queue = [] ∧
        (resync_endpoints s now).sent_ep_req
            = s.sent_ep_req ++ [resyncMsg s.uuid_counter now s.hostname]) := by
  have hid : (resync_endpoints s now).resync_id = some s.uuid_counter :=
    (send_request_proj _ _ _).1
  refine ⟨hid, ?_, (send_request_proj _ _ _).2.1, ?_, ?_, ?_⟩
  · intro t ht heq
    rw [hid] at heq
    exact absurd (Option.some.inj heq).symm (Nat.ne_of_lt ht)
  · intro p hp
    have he : (resync_endpoints s now).endpoints
        = s.endpoints.map (fun q => (q.1, { q.2 with pending_resync := true })) :=
      (send_request_proj _ _ _).2.2.2.2.2
    rw [he] at hp
    obtain ⟨q, _, rfl⟩ := List.mem_map.1 hp
    rfl
  · by_cases h : s.ep_req_outstanding <;>
      simp [resync_endpoints, send_request, h]
  · by_cases h : s.ep_req_outstanding <;>
      simp [resync_endpoints, send_request, h]

/-- Witness for C6: a concrete agent with three tokens burned gets token 3,
different from the earlier token 2, and a zeroed counter. -/
theorem resync_endpoints_spec_witness :
    (resync_endpoints threeTokensUsed 0).resync_id = some 3 ∧
    (resync_endpoints threeTokensUsed 0).resync_id ≠ some 2 ∧
    (resync_endpoints threeTokensUsed 0).resync_recd = some 0 ∧
    (resync_endpoints threeTokensUsed 0).acl_queue = [] :=
  ⟨(resync_endpoints_spec threeTokensUsed 0).1,
   (resync_endpoints_spec threeTokensUsed 0).2.1 2 (by decide),
   (resync_endpoints_spec threeTokensUsed 0).2.2.1,
   (resync_endpoints_spec threeTokensUsed 0).2.2.2.2.1⟩

/-- Claim C10: every completion — successful or not — stamps `resync_time`
with `now * 1000`; an unsuccessful completion additionally leaves the
registry and the `ep.remove()` trace untouched (only pruning is skipped),
clears the resync context, still queries the installed rule chains and
retains exactly those with a registry suffix, calling `futils.del_rules` on
exactly the installed suffixes belonging to no registry endpoint. -/
theorem complete_resync_failure_still_reconciles (s : AgentState) (b : Bool)
    (now : ℤ) :
    (complete_endpoint_resync s b now).resync_time = some (now * 1000) ∧
    (complete_endpoint_resync s false now).endpoints = s.endpoints ∧
    (complete_endpoint_resync s false now).removeCalls = s.removeCalls ∧
    (complete_endpoint_resync s false now).resync_id = none ∧
    (complete_endpoint_resync s false now).resync_recd = none ∧
    (complete_endpoint_resync s false now).resync_expected = none ∧
    (complete_endpoint_resync s false now).installed
      = s.installed.filter (fun x => memb x (knownSuffixes s)) ∧
    (complete_endpoint_resync s false now).delRulesCalls
      = s.delRulesCalls
          ++ s.installed.filter (fun r => !(memb r (knownSuffixes s))) := by
  refine ⟨?_, (reconcile_proj _ _ _).1, (reconcile_proj _ _ _).2.1,
          (reconcile_proj _ _ _).2.2.1, (reconcile_proj _ _ _).2.2.2.1,
          (reconcile_proj _ _ _).2.2.2.2.1, ?_, ?_⟩
  · cases b
    · exact (reconcile_proj _ _ _).2.2.2.2.2.1
    · exact ((reconcile_proj _ _ _).2.2.2.2.2.1).trans
        ((pruneRules_proj _ _).2.2.2.1)
  · have h1 : (complete_endpoint_resync s false now).installed
        = s.installed.filter
            (fun x => memb x (knownSuffixes s) || !(memb x s.installed)) :=
      reconcile_installed (knownSuffixes s) s.installed
        { s with resync_id := none, resync_recd := none,
                 resync_expected := none, resync_time := some (now * 1000) }
    rw [h1]
    apply filter_congr_on
    intro x hx
    simp [memb_of_mem hx]
  · exact reconcile_calls (knownSuffixes s) s.installed
      { s with resync_id := none, resync_recd := none,
               resync_expected := none, resync_time := some (now * 1000) }

/-- Claim C4: the RESYNCSTATE reply drives the resync machine exactly as
claimed: a non-SUCCESS rc runs completion with `successful = false`; rc
SUCCESS with a zero `endpoint_count`, or one equal to `resync_recd`, runs
completion with `successful = true`; rc SUCCESS with a count exceeding the
received count only records `resync_expected := endpoint_count` and runs no
completion (the resulting state differs from the input in that field
alone). -/
theorem handle_resyncstate_reply_cases (s : AgentState) (m : Message)
    (now : ℤ) (rc msgs : String) (c : Nat)
    (hrc : m.fields.rc = some rc) (hmsg : m.fields.message = some msgs)
    (hcnt : m.fields.endpoint_count = some c) :
    (rc ≠ "SUCCESS" →
      handle_resyncstate s m now
        = .ok (complete_endpoint_resync s false now)) ∧
    (rc = "SUCCESS" → (c = 0 ∨ s.resync_recd = some c) →
      handle_resyncstate s m now
        = .ok (complete_endpoint_resync s true now)) ∧
    (∀ r, rc = "SUCCESS" → s.resync_recd = some r → r < c →
      handle_resyncstate s m now
        = .ok { s with resync_expected := some c }) := by
  unfold handle_resyncstate
  rw [hcnt, hrc, hmsg]
  refine ⟨?_, ?_, ?_⟩
  · intro hne
    have hb : (rc != "SUCCESS") = true := by simpa using hne
    simp [hb]
  · intro hrcS hor
    subst hrcS
    have hb : (("SUCCESS" : String) != "SUCCESS") = false := by simp
    rcases hor with h0 | hr
    · subst h0
      simp [hb]
    · simp [hb, pyEqNat, hr]
  · intro r hrcS hr hlt
    subst hrcS
    have hb : (("SUCCESS" : String) != "SUCCESS") = false := by simp
    have h0 : (c == 0) = false := by
      simp only [beq_eq_false_iff_ne, ne_eq]
      omega
    have h1 : pyEqNat s.resync_recd c = false := by
      rw [hr]
      simp only [pyEqNat, beq_eq_false_iff_ne, ne_eq]
      omega
    simp [hb, h0, h1]

/-- Witness for C4: a refused reply in a concrete awaiting-reply state runs
completion with `successful = false`. -/
theorem handle_resyncstate_reply_cases_witness :
    handle_resyncstate awaitingReplyState resyncRefused 0
      = .ok (complete_endpoint_resync awaitingReplyState false 0) :=
  (handle_resyncstate_reply_cases awaitingReplyState resyncRefused 0
      "FAIL" "denied" 3 rfl rfl rfl).1 (by decide)

theorem handle_endpointcreated_fields (s : AgentState) (m : Message)
    (now : ℤ) (eid : EpId) (rid : Option Nat) (iss : ℤ) (mc : String)
    (h1 : m.fields.endpoint_id = some eid)
    (h2 : m.fields.resync_id = some rid)
    (h3 : m.fields.issued = some iss) (h4 : m.fields.mac = some mc) :
    handle_endpointcreated s m now =
      (let se : AgentState × Endpoint :=
         match epLookup s.endpoints eid with
         | some ep => (s, ep)
         | none => create_endpoint s eid mc now
       match update_endpoint se.1 se.2 m.fields with
       | .error e => .error e
       | .ok se2 =>
           resync_tail
             { se2.1 with endpoints := epInsert se2.1.endpoints eid se2.2,
                          sent_ep_rep := se2.1.sent_ep_rep ++ [epSuccessReply] }
             rid now) := by
  unfold handle_endpointcreated
  rw [h1, h2, h3, h4]

/-- Claim C5: an ENDPOINTCREATED whose resync token does not match the active
one (stale token, null token, or no resync in flight) is still processed as a
normal endpoint update — afterwards the endpoint is present in the registry
and the SUCCESS reply has gone out on EP_REP — while `resync_recd`,
`resync_id`, `resync_expected` and `resync_time` are all untouched, so no
completion was triggered. -/
theorem endpointcreated_stale_token_no_resync_effect
    (s : AgentState) (m : Message) (now : ℤ) (eid : EpId) (rid : Option Nat)
    (iss : ℤ) (mc st : String) (ads : List String)
    (h1 : m.fields.endpoint_id = some eid)
    (h2 : m.fields.resync_id = some rid)
    (h3 : m.fields.issued = some iss) (h4 : m.fields.mac = some mc)
    (h5 : m.fields.state = some st) (h6 : m.fields.addrs = some ads)
    (hstale : tokenMatch rid s.resync_id = false) :
    ((handle_endpointcreated s m now).toOption.map (fun u => u.resync_recd)
        = some s.resync_recd) ∧
    ((handle_endpointcreated s m now).toOption.map (fun u => u.resync_id)
        = some s.resync_id) ∧
    ((handle_endpointcreated s m now).toOption.map (fun u => u.resync_expected)
        = some s.resync_expected) ∧
    ((handle_endpointcreated s m now).toOption.map (fun u => u.resync_time)
        = some s.resync_time) ∧
    ((handle_endpointcreated s m now).toOption.map
        (fun u => (epLookup u.endpoints eid).isSome) = some true) ∧
    ((handle_endpointcreated s m now).toOption.map (fun u => u.sent_ep_rep)
        = some (s.sent_ep_rep ++ [epSuccessReply])) := by
  have key : ∃ u : AgentState,
      handle_endpointcreated s m now = .ok u ∧
      u.resync_recd = s.resync_recd ∧ u.resync_id = s.resync_id ∧
      u.resync_expected = s.resync_expected ∧ u.resync_time = s.resync_time ∧
      (epLookup u.endpoints eid).isSome = true ∧
      u.sent_ep_rep = s.sent_ep_rep ++ [epSuccessReply] := by
    rw [handle_endpointcreated_fields s m now eid rid iss mc h1 h2 h3 h4]
    rcases hl : epLookup s.endpoints eid with _ | ep
    · refine ⟨{ program_endpoint (create_endpoint s eid mc now).1
                  { (create_endpoint s eid mc now).2 with
                      addresses := ads, mac := mc } with
                endpoints :=
                  epInsert (program_endpoint (create_endpoint s eid mc now).1
                      { (create_endpoint s eid mc now).2 with
                          addresses := ads, mac := mc }).endpoints eid
                    { (create_endpoint s eid mc now).2 with
                        addresses := ads, mac := mc },
                sent_ep_rep :=
                  (program_endpoint (create_endpoint s eid mc now).1
                      { (create_endpoint s eid mc now).2 with
                          addresses := ads, mac := mc }).sent_ep_rep
                    ++ [epSuccessReply] },
              ?_, ?_, ?_, ?_, ?_, ?_, ?_⟩
      · show (match update_endpoint (create_endpoint s eid mc now).1
                  (create_endpoint s eid mc now).2 m.fields with
              | Except.error e => Except.error e
              | Except.ok se2 =>
                  resync_tail
                    { se2.1 with
                        endpoints := epInsert se2.1.endpoints eid se2.2,
                        sent_ep_rep := se2.1.sent_ep_rep ++ [epSuccessReply] }
                    rid now) = _
        rw [update_endpoint_eq (create_endpoint s eid mc now).1
          (create_endpoint s eid mc now).2 m.fields mc st ads h4 h5 h6]
        have hcre : tokenMatch rid (create_endpoint s eid mc now).1.resync_id
            = false := by
          rw [(create_endpoint_proj s eid mc now).1]
          exact hstale
        exact resync_tail_stale _ rid now hcre
      · exact (create_endpoint_proj s eid mc now).2.1
      · exact (create_endpoint_proj s eid mc now).1
      · exact (create_endpoint_proj s eid mc now).2.2.1
      · exact (create_endpoint_proj s eid mc now).2.2.2.1
      · simp [epLookup_epInsert_self]
      · show (create_endpoint s eid mc now).1.sent_ep_rep ++ [epSuccessReply]
            = s.sent_ep_rep ++ [epSuccessReply]
        rw [(create_endpoint_proj s eid mc now).2.2.2.2]
    · refine ⟨{ program_endpoint s { ep with addresses := ads, mac := mc } with
                endpoints :=
                  epInsert (program_endpoint s
                      { ep with addresses := ads, mac := mc }).endpoints eid
                    { ep with addresses := ads, mac := mc },
                sent_ep_rep :=
                  (program_endpoint s
                      { ep with addresses := ads, mac := mc }).sent_ep_rep
                    ++ [epSuccessReply] },
              ?_, rfl, rfl, rfl, rfl, ?_, rfl⟩
      · show (match update_endpoint s ep m.fields with
              | Except.error e => Except.error e
              | Except.ok se2 =>
                  resync_tail
                    { se2.1 with
                        endpoints := epInsert se2.1.endpoints eid se2.2,
                        sent_ep_rep := se2.1.sent_ep_rep ++ [epSuccessReply] }
                    rid now) = _
        rw [update_endpoint_eq s ep m.fields mc st ads h4 h5 h6]
        exact resync_tail_stale _ rid now hstale
      · simp [epLookup_epInsert_self]
  obtain ⟨u, hu, p1, p2, p3, p4, p5, p6⟩ := key
  rw [hu]
  exact ⟨by simp [Except.toOption, p1], by simp [Except.toOption, p2],
         by simp [Except.toOption, p3], by simp [Except.toOption, p4],
         by simp [Except.toOption, p5], by simp [Except.toOption, p6]⟩

/-- Witness for C5: in a concrete awaiting-reply state with active token 9,
an ENDPOINTCREATED for a fresh `e1` carrying stale token 3 creates the
endpoint and replies, touching none of the resync context. -/
theorem endpointcreated_stale_token_witness :
    ((handle_endpointcreated awaitingReplyState createE1Stale 0).toOption.map
        (fun u => u.resync_recd) = some awaitingReplyState.resync_recd) ∧
    ((handle_endpointcreated awaitingReplyState createE1Stale 0).toOption.map
        (fun u => u.resync_id) = some awaitingReplyState.resync_id) ∧
    ((handle_endpointcreated awaitingReplyState createE1Stale 0).toOption.map
        (fun u => u.resync_expected)
        = some awaitingReplyState.resync_expected) ∧
    ((handle_endpointcreated awaitingReplyState createE1Stale 0).toOption.map
        (fun u => u.resync_time) = some awaitingReplyState.resync_time) ∧
    ((handle_endpointcreated awaitingReplyState createE1Stale 0).toOption.map
        (fun u => (epLookup u.endpoints "e1").isSome) = some true) ∧
    ((handle_endpointcreated awaitingReplyState createE1Stale 0).toOption.map
        (fun u => u.sent_ep_rep)
        = some (awaitingReplyState.sent_ep_rep ++ [epSuccessReply])) :=
  endpointcreated_stale_token_no_resync_effect awaitingReplyState
    createE1Stale 0 "e1" (some 3) 0 "m" "enabled" ["10.0.0.1"]
    rfl rfl rfl rfl rfl rfl (by decide)
